import Mathlib

/-!
Verification of the Hyperslop MCP server (gateway client + tool surface).

Shallow embedding of the two source modules:
- the gateway client (`gateway_client.py`): URL construction, loopback-hostname
  rewriting, the RPC request wrapper and the raw-read request wrapper, and the
  per-operation request builders;
- the tool surface (`main.py`): the optional global client and the tool
  dispatch functions with their unconfigured-client and node-ownership guards.

The HTTP transport is treated as an external primitive: each embedded
operation takes a transport function mapping the request it would send to the
outcome of the HTTP exchange, and additionally returns the list of requests it
actually handed to the transport, so that "issues no network call" is the
statement that this list is empty.
-/

namespace Hyperslop

/-- Python `str.startswith(pre)` on our (character list) view of strings. -/
def py_startswith (s pre : String) : Bool :=
  pre.data.isPrefixOf s.data

/-- Python `str.rstrip('/')`: remove every trailing `'/'` character. -/
def py_rstrip_slash (s : String) : String :=
  String.mk ((s.data.reverse.dropWhile (fun c => c == '/')).reverse)

/-- Decimal digits to a natural number (for parsing a port). -/
def digitsToNat (cs : List Char) : Nat :=
  cs.foldl (fun acc c => acc * 10 + (c.toNat - '0'.toNat)) 0

/-- A parsed URL as `urllib.parse.urlparse` views it, restricted to the parts
the code touches: scheme, netloc (`host` or `host:port`) and path.  URL
parsing/unparsing itself is an external primitive. -/
structure ParsedUrl where
  scheme : String
  netloc : String
  path : String
deriving DecidableEq

/-- `parsed.port`: the decimal digits after the last `':'` of the netloc, if
the netloc has a `':'` and those characters are a nonempty digit string. -/
def portOf (netloc : String) : Option Nat :=
  if netloc.data.contains ':' then
    let ds := (netloc.data.reverse.takeWhile (fun c => c != ':')).reverse
    if ds ≠ [] ∧ ds.all (fun c => c.isDigit) then some (digitsToNat ds) else none
  else none

/-- The hostname part of a netloc: everything before the last `':'`, or the
whole netloc when it has none. -/
def hostOf (netloc : String) : String :=
  if netloc.data.contains ':' then
    String.mk (((netloc.data.reverse.dropWhile (fun c => c != ':')).drop 1).reverse)
  else netloc

/-- `f":{parsed.port}" if parsed.port else ""` — Python truthiness makes both
a missing port and port 0 produce the empty string. -/
def portSuffix (netloc : String) : String :=
  match portOf netloc with
  | some p => if p = 0 then "" else ":" ++ toString p
  | none => ""

/-- The characters of the marker `".localhost"` that the rewrite looks for. -/
def dotLocalhost : List Char := ".localhost".data

/-- `GatewayClient._fix_localhost_url`: if `'.localhost' in parsed.netloc or
parsed.netloc == 'localhost'`, replace the netloc by `127.0.0.1` plus the
original port suffix; otherwise return the URL unchanged. -/
def fix_localhost_url (u : ParsedUrl) : ParsedUrl :=
  if List.IsInfix dotLocalhost u.netloc.data ∨ u.netloc = "localhost" then
    ⟨u.scheme, "127.0.0.1" ++ portSuffix u.netloc, u.path⟩
  else u

/-- The configuration triple loaded from `api.json`. -/
structure GatewayConfig where
  url : String
  key : String
  node : String
deriving DecidableEq

/-- The gateway client object: configuration, API-key header, and the two
endpoint URLs derived from the base URL in `GatewayClient.__init__`. -/
structure GatewayClient where
  config : GatewayConfig
  headers : List (String × String)
  rpc_url : String
  read_url : String
deriving DecidableEq

/-- `GatewayClient.__init__`: strip trailing slashes from the configured base
URL and derive the `/rpc` and `/read` endpoint URLs. -/
def GatewayClient.init (config : GatewayConfig) : GatewayClient :=
  let base_url := py_rstrip_slash config.url
  { config := config
    headers := [("X-API-Key", config.key)]
    rpc_url := base_url ++ "/rpc"
    read_url := base_url ++ "/read" }

/-- `GatewayClient.get_node`. -/
def GatewayClient.get_node (c : GatewayClient) : String :=
  c.config.node

/-- The JSON body posted to the RPC endpoint:
`{"node": node, "request": {"request_type": rt, "path": path[, "content": c]}}`. -/
structure RpcRequest where
  node : String
  request_type : String
  path : String
  content : Option String
deriving DecidableEq

/-- Outcome of one HTTP POST to the RPC endpoint, as the code's exception
handlers partition it: a 2xx response with parsed JSON body `α`; an
`httpx.HTTPError` (connection failure, timeout, or the `HTTPStatusError`
raised by `raise_for_status` on a non-2xx status), carrying `str(e)`; or any
other exception, carrying `str(e)`. -/
inductive HttpOutcome (α : Type) where
  | success (body : α)
  | httpError (message : String)
  | otherError (message : String)

/-- The value returned by an RPC-style operation: the locally built
`{"Error": {"message": m}}` dict, or the server's JSON body passed through. -/
inductive Envelope (α : Type) where
  | Error (message : String)
  | body (v : α)
deriving DecidableEq

/-- A transport for the RPC endpoint: what the HTTP exchange for a given
request body would produce. -/
def RpcTransport (α : Type) : Type := RpcRequest → HttpOutcome α

/-- `GatewayClient._make_rpc_request`: POST the request, return the JSON body
on success, and convert every exception into an error envelope.  The second
component records the single request handed to the transport. -/
def make_rpc_request {α : Type} (t : RpcTransport α) (req : RpcRequest) :
    Envelope α × List RpcRequest :=
  match t req with
  | .success body => (Envelope.body body, [req])
  | .httpError msg => (Envelope.Error msg, [req])
  | .otherError msg => (Envelope.Error ("Request failed: " ++ msg), [req])

/-- Outcome of one HTTP GET to the read endpoint: a 2xx response with an
optional `Content-Type` header and a textual body; an `httpx.HTTPStatusError`
from `raise_for_status` with its status code and `str(e)`; or any other
exception (connection failure included), carrying `str(e)`. -/
inductive ReadOutcome where
  | success (contentType : Option String) (bodyText : String)
  | statusError (status : Nat) (message : String)
  | otherError (message : String)

/-- The value returned by `read_file`: the error dict or the
`{"ReadFile": {"content": c, "mime_type": m}}` dict. -/
inductive ReadResult where
  | Error (message : String)
  | ReadFile (content : String) (mime_type : String)
deriving DecidableEq

/-- A transport for the read endpoint, addressed by `(node, path)`. -/
def ReadTransport : Type := String × String → ReadOutcome

/-- `GatewayClient._make_read_request`: GET `{read_url}/{node}/{path}`,
default the mime type to `text/plain` when no `Content-Type` header is
present, reject non-`text/*` content, report a 404 as a file-not-found
message naming the path, and convert every other exception into an error
envelope.  The second component records the `(node, path)` read issued. -/
def make_read_request (t : ReadTransport) (node path : String) :
    ReadResult × List (String × String) :=
  match t (node, path) with
  | .success ct bodyText =>
    let mime_type := ct.getD "text/plain"
    if py_startswith mime_type "text/" then
      (ReadResult.ReadFile bodyText mime_type, [(node, path)])
    else
      (ReadResult.Error ("File is not a text file (mime type: " ++ mime_type ++ ")"),
        [(node, path)])
  | .statusError status msg =>
    if status = 404 then
      (ReadResult.Error ("File not found: " ++ path), [(node, path)])
    else
      (ReadResult.Error msg, [(node, path)])
  | .otherError msg =>
    (ReadResult.Error ("Request failed: " ++ msg), [(node, path)])

/-- `GatewayClient.read_directory`. -/
def GatewayClient.read_directory {α : Type} (_c : GatewayClient) (t : RpcTransport α)
    (node path : String) : Envelope α × List RpcRequest :=
  make_rpc_request t ⟨node, "ReadPublicDir", path, none⟩

/-- `GatewayClient.create_directory`. -/
def GatewayClient.create_directory {α : Type} (_c : GatewayClient) (t : RpcTransport α)
    (node path : String) : Envelope α × List RpcRequest :=
  make_rpc_request t ⟨node, "CreateDir", path, none⟩

/-- `GatewayClient.delete_directory`. -/
def GatewayClient.delete_directory {α : Type} (_c : GatewayClient) (t : RpcTransport α)
    (node path : String) : Envelope α × List RpcRequest :=
  make_rpc_request t ⟨node, "DeleteDir", path, none⟩

/-- `GatewayClient.read_file`: delegates to the read endpoint. -/
def GatewayClient.read_file (_c : GatewayClient) (t : ReadTransport)
    (node path : String) : ReadResult × List (String × String) :=
  make_read_request t node path

/-- `GatewayClient.create_file`. -/
def GatewayClient.create_file {α : Type} (_c : GatewayClient) (t : RpcTransport α)
    (node path content : String) : Envelope α × List RpcRequest :=
  make_rpc_request t ⟨node, "CreateFile", path, some content⟩

/-- `GatewayClient.write_file`. -/
def GatewayClient.write_file {α : Type} (_c : GatewayClient) (t : RpcTransport α)
    (node path content : String) : Envelope α × List RpcRequest :=
  make_rpc_request t ⟨node, "WriteFile", path, some content⟩

/-- `GatewayClient.delete_file`. -/
def GatewayClient.delete_file {α : Type} (_c : GatewayClient) (t : RpcTransport α)
    (node path : String) : Envelope α × List RpcRequest :=
  make_rpc_request t ⟨node, "DeleteFile", path, none⟩

/-- `GatewayClient.read_file_tree`: one RPC request with an empty path; the
response body is returned exactly as the transport produced it. -/
def GatewayClient.read_file_tree {α : Type} (_c : GatewayClient) (t : RpcTransport α)
    (node : String) : Envelope α × List RpcRequest :=
  make_rpc_request t ⟨node, "ReadFileTree", "", none⟩

/-! The tool surface of `main.py`.  The module-global `gateway_client` is
`none` when loading `api.json` failed at startup and `some c` otherwise; each
tool takes it as an argument together with the transport. -/

/-- The message of the unconfigured-client error envelope. -/
def unconfiguredMsg : String := "Gateway client not configured"

/-- Tool `get_our_node_name`: returns a bare string — `"No node configured"`
when the client is unconfigured, the configured node name otherwise. -/
def get_our_node_name (gc : Option GatewayClient) : String :=
  match gc with
  | none => "No node configured"
  | some c => c.get_node

/-- A Python tool return value is dynamically typed: the dict tools return an
envelope, `get_our_node_name` returns a plain string. -/
inductive ToolReturn (α : Type) where
  | envelope (e : Envelope α)
  | plainString (s : String)
deriving DecidableEq

/-- Whether a tool return value is an error envelope (a dict whose `Error`
tag is set); a bare string is not. -/
def ToolReturn.isErrorEnvelope {α : Type} : ToolReturn α → Bool
  | .envelope (.Error _) => true
  | _ => false

/-- The value the `get_our_node_name` tool hands back to the runtime, as a
dynamically typed tool return. -/
def get_our_node_name_value (α : Type) (gc : Option GatewayClient) : ToolReturn α :=
  ToolReturn.plainString (get_our_node_name gc)

/-- Tool `read_directory`: unconfigured guard, then forward to the client for
any node. -/
def read_directory_tool {α : Type} (gc : Option GatewayClient) (t : RpcTransport α)
    (node path : String) : Envelope α × List RpcRequest :=
  match gc with
  | none => (Envelope.Error unconfiguredMsg, [])
  | some c => c.read_directory t node path

/-- Tool `create_directory`: unconfigured guard, then node-ownership guard,
then forward to the client. -/
def create_directory_tool {α : Type} (gc : Option GatewayClient) (t : RpcTransport α)
    (node path : String) : Envelope α × List RpcRequest :=
  match gc with
  | none => (Envelope.Error unconfiguredMsg, [])
  | some c =>
    if node ≠ c.get_node then
      (Envelope.Error "You can only create directories on your own node", [])
    else
      c.create_directory t node path

/-- Tool `delete_directory`: unconfigured guard, then node-ownership guard,
then forward to the client. -/
def delete_directory_tool {α : Type} (gc : Option GatewayClient) (t : RpcTransport α)
    (node path : String) : Envelope α × List RpcRequest :=
  match gc with
  | none => (Envelope.Error unconfiguredMsg, [])
  | some c =>
    if node ≠ c.get_node then
      (Envelope.Error "You can only delete directories on your own node", [])
    else
      c.delete_directory t node path

/-- Tool `read_file`: unconfigured guard, then forward to the client for any
node. -/
def read_file_tool (gc : Option GatewayClient) (t : ReadTransport)
    (node path : String) : ReadResult × List (String × String) :=
  match gc with
  | none => (ReadResult.Error unconfiguredMsg, [])
  | some c => c.read_file t node path

/-- Tool `create_file`: unconfigured guard, then node-ownership guard, then
forward to the client. -/
def create_file_tool {α : Type} (gc : Option GatewayClient) (t : RpcTransport α)
    (node path content : String) : Envelope α × List RpcRequest :=
  match gc with
  | none => (Envelope.Error unconfiguredMsg, [])
  | some c =>
    if node ≠ c.get_node then
      (Envelope.Error "You can only create files on your own node", [])
    else
      c.create_file t node path content

/-- Tool `write_file`: unconfigured guard, then node-ownership guard, then
forward to the client.  The source has no content check: every content
string, empty or not, reaches the client call. -/
def write_file_tool {α : Type} (gc : Option GatewayClient) (t : RpcTransport α)
    (node path content : String) : Envelope α × List RpcRequest :=
  match gc with
  | none => (Envelope.Error unconfiguredMsg, [])
  | some c =>
    if node ≠ c.get_node then
      (Envelope.Error "You can only write to files on your own node", [])
    else
      c.write_file t node path content

/-- Tool `delete_file`: unconfigured guard, then node-ownership guard, then
forward to the client. -/
def delete_file_tool {α : Type} (gc : Option GatewayClient) (t : RpcTransport α)
    (node path : String) : Envelope α × List RpcRequest :=
  match gc with
  | none => (Envelope.Error unconfiguredMsg, [])
  | some c =>
    if node ≠ c.get_node then
      (Envelope.Error "You can only delete files on your own node", [])
    else
      c.delete_file t node path

/-- Tool `read_file_tree`: unconfigured guard, then forward to the client for
any node. -/
def read_file_tree_tool {α : Type} (gc : Option GatewayClient) (t : RpcTransport α)
    (node : String) : Envelope α × List RpcRequest :=
  match gc with
  | none => (Envelope.Error unconfiguredMsg, [])
  | some c => c.read_file_tree t node

/-! Concrete fixtures used by witnesses and counterexamples. -/

/-- A client configured with home node `alice`. -/
def cHome : GatewayClient := GatewayClient.init ⟨"http://gateway.localhost:8080", "k", "alice"⟩

/-- An RPC transport whose exchange always fails with an exception. -/
def tDown : RpcTransport Unit := fun _ => HttpOutcome.otherError "boom"

/-- An RPC transport that always succeeds with a unit body. -/
def tOk : RpcTransport Unit := fun _ => HttpOutcome.success ()

/-- A read transport whose exchange always fails with an exception. -/
def rtDown : ReadTransport := fun _ => ReadOutcome.otherError "boom"

/-! General helper lemmas about the two request wrappers. -/

/-- Every RPC wrapper run hands exactly its one request to the transport. -/
theorem make_rpc_request_log {α : Type} (t : RpcTransport α) (req : RpcRequest) :
    (make_rpc_request t req).2 = [req] := by
  unfold make_rpc_request
  cases t req <;> rfl

/-- Every read wrapper run hands exactly its one `(node, path)` to the
transport. -/
theorem make_read_request_log (t : ReadTransport) (node path : String) :
    (make_read_request t node path).2 = [(node, path)] := by
  unfold make_read_request
  cases t (node, path) with
  | success ct bodyText => dsimp only; split <;> rfl
  | statusError status msg => dsimp only; split <;> rfl
  | otherError msg => rfl

/-- C1: with a configured client, every mutation-class tool (create_directory,
delete_directory, create_file, write_file, delete_file) called with a node
other than the home node returns the authorization-error envelope and hands
nothing to the transport; every read-class tool (read_directory, read_file,
read_file_tree) forwards its request to the gateway transport for an
arbitrary, unconstrained node `m` — home or not — with no node-ownership
check. -/
theorem c1_authorization_boundary {α : Type} (c : GatewayClient) (t : RpcTransport α)
    (rt : ReadTransport) (node m path content : String) (h : node ≠ c.config.node) :
    create_directory_tool (some c) t node path
      = (Envelope.Error "You can only create directories on your own node", []) ∧
    delete_directory_tool (some c) t node path
      = (Envelope.Error "You can only delete directories on your own node", []) ∧
    create_file_tool (some c) t node path content
      = (Envelope.Error "You can only create files on your own node", []) ∧
    write_file_tool (some c) t node path content
      = (Envelope.Error "You can only write to files on your own node", []) ∧
    delete_file_tool (some c) t node path
      = (Envelope.Error "You can only delete files on your own node", []) ∧
    (read_directory_tool (some c) t m path).2 = [⟨m, "ReadPublicDir", path, none⟩] ∧
    (read_file_tool (some c) rt m path).2 = [(m, path)] ∧
    (read_file_tree_tool (some c) t m).2 = [⟨m, "ReadFileTree", "", none⟩] := by
  refine ⟨?_, ?_, ?_, ?_, ?_, ?_, ?_, ?_⟩
  · simp [create_directory_tool, GatewayClient.get_node, h]
  · simp [delete_directory_tool, GatewayClient.get_node, h]
  · simp [create_file_tool, GatewayClient.get_node, h]
  · simp [write_file_tool, GatewayClient.get_node, h]
  · simp [delete_file_tool, GatewayClient.get_node, h]
  · simp [read_directory_tool, GatewayClient.read_directory, make_rpc_request_log]
  · simp [read_file_tool, GatewayClient.read_file, make_read_request_log]
  · simp [read_file_tree_tool, GatewayClient.read_file_tree, make_rpc_request_log]

/-- C1 witness: home node `alice`, mutations attempted as `bob`; the read
tools are exercised both at the home node `alice` and at the foreign node
`bob`, and forward in both cases. -/
theorem c1_authorization_boundary_witness :
    (create_directory_tool (some cHome) tDown "bob" "p"
      = (Envelope.Error "You can only create directories on your own node", []) ∧
    delete_directory_tool (some cHome) tDown "bob" "p"
      = (Envelope.Error "You can only delete directories on your own node", []) ∧
    create_file_tool (some cHome) tDown "bob" "p" "x"
      = (Envelope.Error "You can only create files on your own node", []) ∧
    write_file_tool (some cHome) tDown "bob" "p" "x"
      = (Envelope.Error "You can only write to files on your own node", []) ∧
    delete_file_tool (some cHome) tDown "bob" "p"
      = (Envelope.Error "You can only delete files on your own node", []) ∧
    (read_directory_tool (some cHome) tDown "alice" "p").2
      = [⟨"alice", "ReadPublicDir", "p", none⟩] ∧
    (read_file_tool (some cHome) rtDown "alice" "p").2 = [("alice", "p")] ∧
    (read_file_tree_tool (some cHome) tDown "alice").2
      = [⟨"alice", "ReadFileTree", "", none⟩]) ∧
    (create_directory_tool (some cHome) tDown "bob" "p"
      = (Envelope.Error "You can only create directories on your own node", []) ∧
    delete_directory_tool (some cHome) tDown "bob" "p"
      = (Envelope.Error "You can only delete directories on your own node", []) ∧
    create_file_tool (some cHome) tDown "bob" "p" "x"
      = (Envelope.Error "You can only create files on your own node", []) ∧
    write_file_tool (some cHome) tDown "bob" "p" "x"
      = (Envelope.Error "You can only write to files on your own node", []) ∧
    delete_file_tool (some cHome) tDown "bob" "p"
      = (Envelope.Error "You can only delete files on your own node", []) ∧
    (read_directory_tool (some cHome) tDown "bob" "p").2
      = [⟨"bob", "ReadPublicDir", "p", none⟩] ∧
    (read_file_tool (some cHome) rtDown "bob" "p").2 = [("bob", "p")] ∧
    (read_file_tree_tool (some cHome) tDown "bob").2
      = [⟨"bob", "ReadFileTree", "", none⟩]) :=
  ⟨c1_authorization_boundary cHome tDown rtDown "bob" "alice" "p" "x" (by decide),
    c1_authorization_boundary cHome tDown rtDown "bob" "bob" "p" "x" (by decide)⟩

/-- C2 counterexample: with the client unconfigured, the `get_our_node_name`
tool returns the bare string "No node configured" — a plain string, not an
error envelope — so the claim that every tool operation, this one included,
returns an error envelope is false. -/
theorem c2_counterexample :
    (get_our_node_name_value Unit none).isErrorEnvelope = false ∧
    get_our_node_name none = "No node configured" :=
  ⟨rfl, rfl⟩

/-- C2 amended: with the client unconfigured, each of the eight
envelope-returning tools returns the unconfigured-client error envelope and
hands nothing to the transport, for any arguments; `get_our_node_name`
instead returns the plain (non-empty, non-null) string "No node configured",
and, having no transport, issues no network call either. -/
theorem c2_unconfigured_all_tools {α : Type} (t : RpcTransport α) (rt : ReadTransport)
    (node path content : String) :
    read_directory_tool none t node path = (Envelope.Error unconfiguredMsg, []) ∧
    create_directory_tool none t node path = (Envelope.Error unconfiguredMsg, []) ∧
    delete_directory_tool none t node path = (Envelope.Error unconfiguredMsg, []) ∧
    read_file_tool none rt node path = (ReadResult.Error unconfiguredMsg, []) ∧
    create_file_tool none t node path content = (Envelope.Error unconfiguredMsg, []) ∧
    write_file_tool none t node path content = (Envelope.Error unconfiguredMsg, []) ∧
    delete_file_tool none t node path = (Envelope.Error unconfiguredMsg, []) ∧
    read_file_tree_tool none t node = (Envelope.Error unconfiguredMsg, []) ∧
    get_our_node_name_value α none = ToolReturn.plainString "No node configured" :=
  ⟨rfl, rfl, rfl, rfl, rfl, rfl, rfl, rfl, rfl⟩

/-- C3 counterexample: `write_file` on the home node with empty (hence
whitespace-only) content hands the WriteFile request to the transport and
passes the transport's success through — it does not return a "no content
provided" error and it does issue the network call. -/
theorem c3_counterexample :
    write_file_tool (some cHome) tOk "alice" "f.txt" ""
      = (Envelope.body (), [⟨"alice", "WriteFile", "f.txt", some ""⟩]) ∧
    ("" : String).data.all (fun c => c.isWhitespace) = true :=
  ⟨rfl, rfl⟩

/-- C3 amended: `write_file` performs no content validation: for the home
node, every content string — empty, whitespace-only, or not — is forwarded
in the single WriteFile network request, and a transport success is passed
through as the result. -/
theorem c3_write_file_forwards_content {α : Type} (c : GatewayClient) (t : RpcTransport α)
    (path content : String) (body : α)
    (hok : t ⟨c.config.node, "WriteFile", path, some content⟩ = HttpOutcome.success body) :
    write_file_tool (some c) t c.config.node path content
      = (Envelope.body body, [⟨c.config.node, "WriteFile", path, some content⟩]) := by
  simp [write_file_tool, GatewayClient.get_node, GatewayClient.write_file,
    make_rpc_request, hok]

/-- C3 amended witness: whitespace-only content on the home node is forwarded
to the transport. -/
theorem c3_write_file_forwards_content_witness :
    write_file_tool (some cHome) tOk "alice" "f.txt" " "
      = (Envelope.body (), [⟨"alice", "WriteFile", "f.txt", some " "⟩]) :=
  c3_write_file_forwards_content cHome tOk "f.txt" " " () rfl

/-- An RPC transport answering a tree listing whose single entry path still
carries the internal root marker `prefix/`. -/
def tTree : RpcTransport (List String) := fun _ => HttpOutcome.success ["prefix/foo/bar.txt"]

/-- C4 counterexample: a tree-listing response entry `prefix/foo/bar.txt` is
returned by `read_file_tree` exactly as received — the `prefix/` marker is
still a leading segment of the returned entry path, which was not rewritten
to `foo/bar.txt`. -/
theorem c4_counterexample :
    read_file_tree_tool (some cHome) tTree "alice"
      = (Envelope.body ["prefix/foo/bar.txt"], [⟨"alice", "ReadFileTree", "", none⟩]) ∧
    "prefix/".data.isPrefixOf "prefix/foo/bar.txt".data = true ∧
    ("prefix/foo/bar.txt" : String) ≠ "foo/bar.txt" :=
  ⟨rfl, by decide, by decide⟩

/-- C4 amended: `read_file_tree` issues one ReadFileTree request for the
queried node and returns the gateway's response body exactly as the transport
produced it; no prefix stripping or any other transformation is applied to
the entries. -/
theorem c4_tree_passthrough {α : Type} (c : GatewayClient) (t : RpcTransport α)
    (node : String) (body : α)
    (hok : t ⟨node, "ReadFileTree", "", none⟩ = HttpOutcome.success body) :
    read_file_tree_tool (some c) t node
      = (Envelope.body body, [⟨node, "ReadFileTree", "", none⟩]) := by
  simp [read_file_tree_tool, GatewayClient.read_file_tree, make_rpc_request, hok]

/-- C4 amended witness: the still-prefixed entry comes back unchanged. -/
theorem c4_tree_passthrough_witness :
    read_file_tree_tool (some cHome) tTree "alice"
      = (Envelope.body ["prefix/foo/bar.txt"], [⟨"alice", "ReadFileTree", "", none⟩]) :=
  c4_tree_passthrough cHome tTree "alice" ["prefix/foo/bar.txt"] rfl

/-- C5 counterexample: `http://localhost:9000` has hostname exactly
`localhost` and explicit port 9000, yet the rewrite leaves it unchanged — the
substring test finds no `.localhost` and the whole-netloc comparison fails
against `localhost:9000` — so the claim that every URL with hostname
`localhost` is rewritten to `127.0.0.1` with the port preserved is false. -/
theorem c5_counterexample :
    hostOf "localhost:9000" = "localhost" ∧
    portOf "localhost:9000" = some 9000 ∧
    fix_localhost_url ⟨"http", "localhost:9000", ""⟩ = ⟨"http", "localhost:9000", ""⟩ ∧
    ("localhost:9000" : String) ≠ "127.0.0.1:9000" :=
  ⟨by decide, by decide, by decide, by decide⟩

/-- C5 amended: the rewrite triggers exactly when the netloc contains
`.localhost` as a substring anywhere or equals the bare string `localhost`;
when it triggers, the netloc becomes `127.0.0.1` followed by the original
port suffix, keeping scheme and path; otherwise the URL is unchanged.  The
two spec examples hold, but `localhost` with an explicit port is not
rewritten, and a non-loopback host merely containing `.localhost` is. -/
theorem c5_localhost_rewrite (u : ParsedUrl) :
    (List.IsInfix dotLocalhost u.netloc.data ∨ u.netloc = "localhost" →
      fix_localhost_url u = ⟨u.scheme, "127.0.0.1" ++ portSuffix u.netloc, u.path⟩) ∧
    (¬ List.IsInfix dotLocalhost u.netloc.data ∧ u.netloc ≠ "localhost" →
      fix_localhost_url u = u) ∧
    fix_localhost_url ⟨"http", "myapp.localhost:9000", ""⟩ = ⟨"http", "127.0.0.1:9000", ""⟩ ∧
    fix_localhost_url ⟨"http", "localhost", ""⟩ = ⟨"http", "127.0.0.1", ""⟩ ∧
    fix_localhost_url ⟨"http", "sub.localhost.example.com", ""⟩
      = ⟨"http", "127.0.0.1", ""⟩ := by
  refine ⟨?_, ?_, by decide, by decide, by decide⟩
  · intro h
    unfold fix_localhost_url
    rw [if_pos h]
  · rintro ⟨h1, h2⟩
    have hcond : ¬ (List.IsInfix dotLocalhost u.netloc.data ∨ u.netloc = "localhost") := by
      rintro (hc | hc)
      · exact h1 hc
      · exact h2 hc
    unfold fix_localhost_url
    rw [if_neg hcond]

/-- C5 amended witness: a `.localhost` subdomain with a port is rewritten; a
plain foreign host is untouched. -/
theorem c5_localhost_rewrite_witness :
    fix_localhost_url ⟨"http", "myapp.localhost:9000", ""⟩
      = ⟨"http", "127.0.0.1" ++ portSuffix "myapp.localhost:9000", ""⟩ ∧
    fix_localhost_url ⟨"http", "example.com", ""⟩ = ⟨"http", "example.com", ""⟩ :=
  ⟨(c5_localhost_rewrite ⟨"http", "myapp.localhost:9000", ""⟩).1 (Or.inl (by decide)),
    (c5_localhost_rewrite ⟨"http", "example.com", ""⟩).2.1 ⟨by decide, by decide⟩⟩

/-- Appending strings appends their character lists. -/
theorem string_data_append (a b : String) : (a ++ b).data = a.data ++ b.data := by
  cases a; cases b; rfl

/-- A file-not-found message never coincides with a request-failed message:
the two fixed heads differ. -/
theorem not_found_ne_request_failed (p m : String) :
    ("File not found: " ++ p : String) ≠ ("Request failed: " ++ m : String) := by
  intro h
  have h1 : ("File not found: " ++ p).data = ("Request failed: " ++ m).data :=
    congrArg String.data h
  rw [string_data_append, string_data_append] at h1
  have h2 : "File not found: ".data = 'F' :: "ile not found: ".data := rfl
  have h3 : "Request failed: ".data = 'R' :: "equest failed: ".data := rfl
  rw [h2, h3, List.cons_append, List.cons_append] at h1
  injection h1 with h4 h5
  exact absurd h4 (by decide)

/-- A read transport answering 404 to every read. -/
def rt404 : ReadTransport := fun _ => ReadOutcome.statusError 404 "Client error 404"

/-- C6: a 404 from the read endpoint yields the distinct file-not-found error
naming the requested path, and that message is distinguishable from every
generic transport-failure envelope "Request failed: m" (e.g. the one produced
by a connection-refused exception). -/
theorem c6_read_404_distinct (c : GatewayClient) (rt : ReadTransport)
    (node path msg m : String) (h : rt (node, path) = ReadOutcome.statusError 404 msg) :
    (read_file_tool (some c) rt node path).1
      = ReadResult.Error ("File not found: " ++ path) ∧
    ("File not found: " ++ path : String) ≠ ("Request failed: " ++ m : String) := by
  constructor
  · simp [read_file_tool, GatewayClient.read_file, make_read_request, h]
  · exact not_found_ne_request_failed path m

/-- C6 witness: a simulated 404 for `missing.txt`. -/
theorem c6_read_404_distinct_witness :
    (read_file_tool (some cHome) rt404 "bob" "missing.txt").1
      = ReadResult.Error ("File not found: " ++ "missing.txt") ∧
    ("File not found: " ++ "missing.txt" : String)
      ≠ ("Request failed: " ++ "Connection refused" : String) :=
  c6_read_404_distinct cHome rt404 "bob" "missing.txt" "Client error 404"
    "Connection refused" rfl

/-- A read transport answering every read with binary content. -/
def rtOctet : ReadTransport :=
  fun _ => ReadOutcome.success (some "application/octet-stream") "BYTES"

/-- C7: on a 2xx read response with reported Content-Type `ct`, the result is
a ReadFile success carrying the body and `ct` when `ct` is a text type, and
the unsupported-content error naming `ct` otherwise — never the raw body. -/
theorem c7_content_type_gate (c : GatewayClient) (rt : ReadTransport)
    (node path bodyText ct : String)
    (h : rt (node, path) = ReadOutcome.success (some ct) bodyText) :
    (read_file_tool (some c) rt node path).1 =
      (if py_startswith ct "text/" then ReadResult.ReadFile bodyText ct
       else ReadResult.Error ("File is not a text file (mime type: " ++ ct ++ ")")) := by
  simp [read_file_tool, GatewayClient.read_file, make_read_request, h, Option.getD,
    apply_ite]

/-- C7 witness: an `application/octet-stream` read is rejected with the
unsupported-content error, not returned as content. -/
theorem c7_content_type_gate_witness :
    (read_file_tool (some cHome) rtOctet "bob" "f.bin").1
      = ReadResult.Error "File is not a text file (mime type: application/octet-stream)" :=
  c7_content_type_gate cHome rtOctet "bob" "f.bin" "BYTES" "application/octet-stream" rfl

/-- The RPC wrapper's first component is always a pass-through body or an
error envelope, whatever the transport outcome. -/
theorem make_rpc_request_envelope {α : Type} (t : RpcTransport α) (req : RpcRequest) :
    (∃ v, (make_rpc_request t req).1 = Envelope.body v) ∨
    (∃ m, (make_rpc_request t req).1 = Envelope.Error m) := by
  unfold make_rpc_request
  cases t req with
  | success body => exact Or.inl ⟨body, rfl⟩
  | httpError msg => exact Or.inr ⟨msg, rfl⟩
  | otherError msg => exact Or.inr ⟨"Request failed: " ++ msg, rfl⟩

/-- The read wrapper's first component is always a ReadFile success or an
error envelope, whatever the transport outcome. -/
theorem make_read_request_envelope (t : ReadTransport) (node path : String) :
    (∃ cp mp, (make_read_request t node path).1 = ReadResult.ReadFile cp mp) ∨
    (∃ m, (make_read_request t node path).1 = ReadResult.Error m) := by
  unfold make_read_request
  cases t (node, path) with
  | success ct bodyText =>
    dsimp only
    split
    · exact Or.inl ⟨_, _, rfl⟩
    · exact Or.inr ⟨_, rfl⟩
  | statusError status msg =>
    dsimp only
    split
    · exact Or.inr ⟨_, rfl⟩
    · exact Or.inr ⟨_, rfl⟩
  | otherError msg => exact Or.inr ⟨_, rfl⟩

/-- C8: every gateway-client operation returns a result — a success payload
or an error envelope — for every outcome of the underlying HTTP exchange
(2xx, non-2xx status, connection failure, timeout, or any other exception,
all of which are enumerated by the transport outcome types); every failure
branch terminates in an error envelope and nothing escapes as a fault. -/
theorem c8_every_outcome_enveloped {α : Type} (c : GatewayClient) (t : RpcTransport α)
    (rt : ReadTransport) (node path content : String) :
    ((∃ v, (c.read_directory t node path).1 = Envelope.body v) ∨
      (∃ m, (c.read_directory t node path).1 = Envelope.Error m)) ∧
    ((∃ v, (c.create_directory t node path).1 = Envelope.body v) ∨
      (∃ m, (c.create_directory t node path).1 = Envelope.Error m)) ∧
    ((∃ v, (c.delete_directory t node path).1 = Envelope.body v) ∨
      (∃ m, (c.delete_directory t node path).1 = Envelope.Error m)) ∧
    ((∃ v, (c.create_file t node path content).1 = Envelope.body v) ∨
      (∃ m, (c.create_file t node path content).1 = Envelope.Error m)) ∧
    ((∃ v, (c.write_file t node path content).1 = Envelope.body v) ∨
      (∃ m, (c.write_file t node path content).1 = Envelope.Error m)) ∧
    ((∃ v, (c.delete_file t node path).1 = Envelope.body v) ∨
      (∃ m, (c.delete_file t node path).1 = Envelope.Error m)) ∧
    ((∃ v, (c.read_file_tree t node).1 = Envelope.body v) ∨
      (∃ m, (c.read_file_tree t node).1 = Envelope.Error m)) ∧
    ((∃ cp mp, (c.read_file rt node path).1 = ReadResult.ReadFile cp mp) ∨
      (∃ m, (c.read_file rt node path).1 = ReadResult.Error m)) := by
  refine ⟨?_, ?_, ?_, ?_, ?_, ?_, ?_, ?_⟩ <;>
    first
      | exact make_rpc_request_envelope t _
      | exact make_read_request_envelope rt node path

/-- A read transport answering a 2xx with no Content-Type header. -/
def rtNoCT : ReadTransport := fun _ => ReadOutcome.success none "hello"

/-- C9: a 2xx read response with no Content-Type header defaults the mime
type to text/plain and yields a ReadFile success with that mime type, not an
unsupported-content error. -/
theorem c9_default_mime (c : GatewayClient) (rt : ReadTransport)
    (node path bodyText : String)
    (h : rt (node, path) = ReadOutcome.success none bodyText) :
    (read_file_tool (some c) rt node path).1 = ReadResult.ReadFile bodyText "text/plain" := by
  have hpre : py_startswith "text/plain" "text/" = true := by decide
  simp [read_file_tool, GatewayClient.read_file, make_read_request, h, Option.getD, hpre]

/-- C9 witness: missing Content-Type header on a read of `notes.txt`. -/
theorem c9_default_mime_witness :
    (read_file_tool (some cHome) rtNoCT "bob" "notes.txt").1
      = ReadResult.ReadFile "hello" "text/plain" :=
  c9_default_mime cHome rtNoCT "bob" "notes.txt" "hello" rfl

/-- Prepending slashes to a list is invisible to `dropWhile` over slashes. -/
theorem dropWhile_slash_replicate (k : Nat) (l : List Char) :
    List.dropWhile (fun c => c == '/') (List.replicate k '/' ++ l)
      = List.dropWhile (fun c => c == '/') l := by
  induction k with
  | zero => rfl
  | succ n ih => simp [List.replicate_succ, List.cons_append, List.dropWhile_cons, ih]

/-- Trailing-slash stripping is invariant under appending extra slashes. -/
theorem py_rstrip_slash_append_slashes (u : String) (k : Nat) :
    py_rstrip_slash (u ++ String.mk (List.replicate k '/')) = py_rstrip_slash u := by
  unfold py_rstrip_slash
  have hdata : (u ++ String.mk (List.replicate k '/')).data
      = u.data ++ List.replicate k '/' := string_data_append u _
  rw [hdata, List.reverse_append, List.reverse_replicate, dropWhile_slash_replicate]

/-- C10: constructing the client from a base URL with any number of extra
trailing slashes yields the same RPC and read endpoint URLs as from the bare
URL, and both equal the slash-stripped base followed by /rpc and /read. -/
theorem c10_trailing_slash_urls (u key node : String) (k : Nat) :
    (GatewayClient.init ⟨u ++ String.mk (List.replicate k '/'), key, node⟩).rpc_url
      = (GatewayClient.init ⟨u, key, node⟩).rpc_url ∧
    (GatewayClient.init ⟨u ++ String.mk (List.replicate k '/'), key, node⟩).read_url
      = (GatewayClient.init ⟨u, key, node⟩).read_url ∧
    (GatewayClient.init ⟨u, key, node⟩).rpc_url = py_rstrip_slash u ++ "/rpc" ∧
    (GatewayClient.init ⟨u, key, node⟩).read_url = py_rstrip_slash u ++ "/read" := by
  refine ⟨?_, ?_, rfl, rfl⟩ <;>
    simp [GatewayClient.init, py_rstrip_slash_append_slashes]

end Hyperslop
